import Mathlib

/-!
Shallow embedding of the PharmaTrack inventory core: the in-memory entity
store (`server/storage.ts`, class `MemStorage`), the stock-status derivation
duplicated in `createMedicine`/`updateMedicine`, the presentation-layer
derivation (`BaseMedicine.getStockStatus`), and the two route handlers that
reconcile stock (`POST /api/transactions/:id/items` and
`PATCH /api/orders/:id/status` in `server/routes.ts`).

JS `Map<number, X>` is modelled as an insertion-ordered association list
`List (Nat × X)`; `Map.set` replaces in place when the key exists and appends
otherwise, `Map.get` returns the first (unique in practice) binding.
JS numbers holding quantities/prices are modelled as `Int` (the source never
clamps, so quantities can go negative); timestamps and calendar dates are
modelled as integers (days), and the ambient clock (`new Date()`) is passed
as an explicit `now`/`today` argument.
-/

namespace PharmaTrack

/-- `stock_status` enum from `shared/schema.ts` (`stockStatusEnum`). -/
inductive StockStatus where
  | in_stock
  | low_stock
  | critical
  | out_of_stock
deriving DecidableEq

/-- `role` enum from `shared/schema.ts`. -/
inductive Role where
  | admin
  | pharmacist
  | doctor
  | patient
deriving DecidableEq

/-- `transaction_status` enum from `shared/schema.ts`. -/
inductive TransactionStatus where
  | completed
  | pending
  | cancelled
deriving DecidableEq

/-- `users` table row (`shared/schema.ts`). -/
structure User where
  id : Nat
  username : String
  password : String
  email : String
  fullName : String
  role : Role
  contactNumber : Option String
  address : Option String
  dateJoined : Int
  twoFactorEnabled : Option Bool
  twoFactorSecret : Option String
  twoFactorVerified : Option Bool
  notificationPreferences : Option String
deriving DecidableEq

/-- `medicines` table row (`shared/schema.ts`). -/
structure Medicine where
  id : Nat
  name : String
  description : Option String
  category : String
  price : Int
  stockQuantity : Int
  stockStatus : StockStatus
  expiryDate : Option Int
  batchNumber : Option String
  supplierId : Option Nat
deriving DecidableEq

/-- `InsertMedicine` = `insertMedicineSchema` = medicines row minus `id` and
`stockStatus` (`createInsertSchema(medicines).omit({id, stockStatus})`). -/
structure InsertMedicine where
  name : String
  description : Option String
  category : String
  price : Int
  stockQuantity : Int
  expiryDate : Option Int
  batchNumber : Option String
  supplierId : Option Nat
deriving DecidableEq

/-- A `Partial<InsertMedicine>` patch as it reaches `MemStorage.updateMedicine`.
Each field is optionally present.  TypeScript types are erased at runtime and
`updateMedicine` merges with a plain object spread, so a raw caller could also
smuggle a `stockStatus` property into the merge; we model that field too so
that the claim that it can never take effect is about the runtime behaviour,
not about the type checker. -/
structure MedicinePatch where
  name : Option String
  description : Option (Option String)
  category : Option String
  price : Option Int
  stockQuantity : Option Int
  expiryDate : Option (Option Int)
  batchNumber : Option (Option String)
  supplierId : Option (Option Nat)
  stockStatus : Option StockStatus
deriving DecidableEq

/-- The all-absent patch (a `{}` body). -/
def emptyPatch : MedicinePatch :=
  { name := none, description := none, category := none, price := none,
    stockQuantity := none, expiryDate := none, batchNumber := none,
    supplierId := none, stockStatus := none }

/-- `patients` table row. -/
structure Patient where
  id : Nat
  name : String
  dateOfBirth : Option Int
  gender : Option String
  contactNumber : Option String
  email : Option String
  address : Option String
  allergies : Option String
  medicalHistory : Option String
deriving DecidableEq

/-- `doctors` table row. -/
structure Doctor where
  id : Nat
  name : String
  specialization : String
  contactNumber : Option String
  email : Option String
  address : Option String
  licenseNumber : String
  qualifications : Option String
  bio : Option String
deriving DecidableEq

/-- `prescriptions` table row. -/
structure Prescription where
  id : Nat
  prescriptionNumber : String
  patientId : Nat
  doctorId : Nat
  issueDate : Int
  notes : Option String
deriving DecidableEq

/-- `InsertPrescription` = prescriptions row minus `id`. -/
structure InsertPrescription where
  prescriptionNumber : String
  patientId : Nat
  doctorId : Nat
  issueDate : Int
  notes : Option String
deriving DecidableEq

/-- `prescription_items` table row. -/
structure PrescriptionItem where
  id : Nat
  prescriptionId : Nat
  medicineId : Nat
  dosage : String
  frequency : String
  duration : String
  quantity : Int
deriving DecidableEq

/-- `transactions` row as `MemStorage.createTransaction` actually builds it:
the insert payload (schema minus `id`, `transactionDate`, `status`) spread
together with a store-assigned `id`, a clock-read `date` and a forced
`status: pending` (`storage.ts:480-490`). -/
structure Transaction where
  id : Nat
  patientId : Nat
  prescriptionId : Option Nat
  transactionNumber : String
  date : Int
  totalAmount : Int
  status : TransactionStatus
  notes : Option String
  patientName : Option String
deriving DecidableEq

/-- `InsertTransaction` = `insertTransactionSchema` (omits `id`,
`transactionDate`, `status`); note that the caller cannot carry a status. -/
structure InsertTransaction where
  patientId : Nat
  prescriptionId : Option Nat
  transactionNumber : String
  totalAmount : Int
  notes : Option String
  patientName : Option String
deriving DecidableEq

/-- `transaction_items` table row. -/
structure TransactionItem where
  id : Nat
  transactionId : Nat
  medicineId : Nat
  medicineName : String
  quantity : Int
  price : Int
  unitPrice : Int
deriving DecidableEq

/-- `InsertTransactionItem` = `insertTransactionItemSchema` (omits `id`). -/
structure InsertTransactionItem where
  transactionId : Nat
  medicineId : Nat
  medicineName : String
  quantity : Int
  price : Int
  unitPrice : Int
deriving DecidableEq

/-- `suppliers` table row. -/
structure Supplier where
  id : Nat
  name : String
  contactPerson : Option String
  contactNumber : Option String
  email : Option String
  address : Option String
  website : Option String
  notes : Option String
deriving DecidableEq

/-- `orders` table row.  `status` is a plain `text` column in the schema and a
plain `string` in `MemStorage.updateOrderStatus`; only the route layer checks
it against the five allowed strings. -/
structure Order where
  id : Nat
  supplierId : Nat
  orderDate : Int
  expectedDeliveryDate : Option Int
  status : String
  notes : Option String
deriving DecidableEq

/-- `InsertOrder` = `insertOrderSchema` (omits `id`, `orderDate`, `status`). -/
structure InsertOrder where
  supplierId : Nat
  expectedDeliveryDate : Option Int
  notes : Option String
deriving DecidableEq

/-- `order_items` table row. -/
structure OrderItem where
  id : Nat
  orderId : Nat
  medicineId : Nat
  quantity : Int
deriving DecidableEq

/-- `InsertOrderItem` = `insertOrderItemSchema` (omits `id`). -/
structure InsertOrderItem where
  orderId : Nat
  medicineId : Nat
  quantity : Int
deriving DecidableEq

/-- `Map.get(k)`: first binding for `k`, `undefined` (`none`) when absent. -/
def mapGet {α : Type} (m : List (Nat × α)) (k : Nat) : Option α :=
  (m.find? (fun p => p.1 == k)).map (fun p => p.2)

/-- `Map.set(k, v)`: replace the binding in place when `k` is bound, append
at the end otherwise (JS `Map` preserves insertion order and `set` keeps an
position of an existing key; keys are unique). -/
def mapSet {α : Type} : List (Nat × α) → Nat → α → List (Nat × α)
  | [], k, v => [(k, v)]
  | p :: t, k, v => if p.1 == k then (k, v) :: t else p :: mapSet t k v

/-- The `MemStorage` private state: one `Map` and one auto-increment counter
per entity type (`storage.ts:96-154`).  The session store is external I/O and
holds no entity data, so it is not part of the state. -/
structure Storage where
  users : List (Nat × User)
  medicines : List (Nat × Medicine)
  patients : List (Nat × Patient)
  doctors : List (Nat × Doctor)
  prescriptions : List (Nat × Prescription)
  prescriptionItems : List (Nat × PrescriptionItem)
  transactions : List (Nat × Transaction)
  transactionItems : List (Nat × TransactionItem)
  suppliers : List (Nat × Supplier)
  orders : List (Nat × Order)
  orderItems : List (Nat × OrderItem)
  userCurrentId : Nat
  medicineCurrentId : Nat
  patientCurrentId : Nat
  doctorCurrentId : Nat
  prescriptionCurrentId : Nat
  prescriptionItemCurrentId : Nat
  transactionCurrentId : Nat
  transactionItemCurrentId : Nat
  supplierCurrentId : Nat
  orderCurrentId : Nat
  orderItemCurrentId : Nat
deriving DecidableEq

/-- The state the `MemStorage` constructor builds before `seedData()` runs:
all maps empty, all counters 1 (`storage.ts:123-147`). -/
def emptyStorage : Storage :=
  { users := [], medicines := [], patients := [], doctors := [],
    prescriptions := [], prescriptionItems := [], transactions := [],
    transactionItems := [], suppliers := [], orders := [], orderItems := [],
    userCurrentId := 1, medicineCurrentId := 1, patientCurrentId := 1,
    doctorCurrentId := 1, prescriptionCurrentId := 1,
    prescriptionItemCurrentId := 1, transactionCurrentId := 1,
    transactionItemCurrentId := 1, supplierCurrentId := 1,
    orderCurrentId := 1, orderItemCurrentId := 1 }

namespace MemStorage

/-- The stock-status chain that appears verbatim twice in the store: in
`createMedicine` (`storage.ts:290-298`, initialised to `in_stock` and then
reassigned by the `if`/`else if` chain) and in `updateMedicine`
(`storage.ts:313-321`, same chain with an explicit else-branch for `in_stock`).
Both sites compute exactly this function of the quantity. -/
def storageStockStatus (q : Int) : StockStatus :=
  if q = 0 then .out_of_stock
  else if q ≤ 5 then .critical
  else if q ≤ 20 then .low_stock
  else .in_stock

/-- `MemStorage.getMedicine` (`storage.ts:278-280`). -/
def getMedicine (s : Storage) (id : Nat) : Option Medicine :=
  mapGet s.medicines id

/-- `MemStorage.createMedicine` (`storage.ts:288-303`): assign the next id,
derive the stock status from the inserted quantity (the insert payload cannot
carry a status: the schema omits it, and the computed `stockStatus` is placed
after the spread in the object literal), store, return. -/
def createMedicine (s : Storage) (insertMedicine : InsertMedicine) :
    Medicine × Storage :=
  let id := s.medicineCurrentId
  let medicine : Medicine :=
    { id := id
      name := insertMedicine.name
      description := insertMedicine.description
      category := insertMedicine.category
      price := insertMedicine.price
      stockQuantity := insertMedicine.stockQuantity
      stockStatus := storageStockStatus insertMedicine.stockQuantity
      expiryDate := insertMedicine.expiryDate
      batchNumber := insertMedicine.batchNumber
      supplierId := insertMedicine.supplierId }
  (medicine,
   { s with medicines := mapSet s.medicines id medicine
            medicineCurrentId := s.medicineCurrentId + 1 })

/-- The object spread `{ ...existingMedicine, ...medicine }` of
`storage.ts:309`: a field present on the patch wins, an absent field keeps the
stored value.  A (runtime) `stockStatus` on the patch also wins here — the
recomputation below is what makes it irrelevant. -/
def applyPatch (m : Medicine) (p : MedicinePatch) : Medicine :=
  { id := m.id
    name := p.name.getD m.name
    description := p.description.getD m.description
    category := p.category.getD m.category
    price := p.price.getD m.price
    stockQuantity := p.stockQuantity.getD m.stockQuantity
    stockStatus := p.stockStatus.getD m.stockStatus
    expiryDate := p.expiryDate.getD m.expiryDate
    batchNumber := p.batchNumber.getD m.batchNumber
    supplierId := p.supplierId.getD m.supplierId }

/-- `MemStorage.updateMedicine` (`storage.ts:305-326`): merge the patch over
the stored record, then recompute `stockStatus` from the merged quantity.
The source guards the recomputation with
`if (updatedMedicine.stockQuantity !== undefined)`; the merged record always
carries the stored quantity when the patch has none (the column is
`notNull`), so the guard is always true and the recomputation always runs. -/
def updateMedicine (s : Storage) (id : Nat) (medicine : MedicinePatch) :
    Option Medicine × Storage :=
  match mapGet s.medicines id with
  | none => (none, s)
  | some existingMedicine =>
    let merged := applyPatch existingMedicine medicine
    let updatedMedicine :=
      { merged with stockStatus := storageStockStatus merged.stockQuantity }
    (some updatedMedicine,
     { s with medicines := mapSet s.medicines id updatedMedicine })

/-- `MemStorage.getMedicinesByExpiryDate` (`storage.ts:338-346`): keep every
medicine whose expiry date is non-null (`medicine.expiryDate &&` — a `Date`
object is always truthy, `null` is falsy) and at most `today + daysThreshold`
(`thresholdDate` is built by `setDate(today.getDate() + daysThreshold)`,
i.e. calendar-day addition). -/
def getMedicinesByExpiryDate (s : Storage) (today : Int) (daysThreshold : Int) :
    List Medicine :=
  let thresholdDate := today + daysThreshold
  (s.medicines.map (fun p => p.2)).filter (fun medicine =>
    match medicine.expiryDate with
    | none => false
    | some d => decide (d ≤ thresholdDate))

/-- `MemStorage.getPrescriptionByNumber` (`storage.ts:415-419`). -/
def getPrescriptionByNumber (s : Storage) (prescriptionNumber : String) :
    Option Prescription :=
  (s.prescriptions.map (fun p => p.2)).find?
    (fun prescription => prescription.prescriptionNumber == prescriptionNumber)

/-- `MemStorage.createPrescription` (`storage.ts:427-432`): assign the next
id and store — there is no lookup of any kind before the `set`. -/
def createPrescription (s : Storage) (insertPrescription : InsertPrescription) :
    Prescription × Storage :=
  let id := s.prescriptionCurrentId
  let prescription : Prescription :=
    { id := id
      prescriptionNumber := insertPrescription.prescriptionNumber
      patientId := insertPrescription.patientId
      doctorId := insertPrescription.doctorId
      issueDate := insertPrescription.issueDate
      notes := insertPrescription.notes }
  (prescription,
   { s with prescriptions := mapSet s.prescriptions id prescription
            prescriptionCurrentId := s.prescriptionCurrentId + 1 })

/-- `MemStorage.getTransaction` (`storage.ts:470-472`). -/
def getTransaction (s : Storage) (id : Nat) : Option Transaction :=
  mapGet s.transactions id

/-- `MemStorage.createTransaction` (`storage.ts:480-490`): the spread places
`id`, `date: new Date()` and `status: pending` after the insert payload, so
the stored status is always `pending` and the date always comes from the
clock (`now`), never from the caller. -/
def createTransaction (s : Storage) (now : Int)
    (insertTransaction : InsertTransaction) : Transaction × Storage :=
  let id := s.transactionCurrentId
  let transaction : Transaction :=
    { id := id
      patientId := insertTransaction.patientId
      prescriptionId := insertTransaction.prescriptionId
      transactionNumber := insertTransaction.transactionNumber
      date := now
      totalAmount := insertTransaction.totalAmount
      status := .pending
      notes := insertTransaction.notes
      patientName := insertTransaction.patientName }
  (transaction,
   { s with transactions := mapSet s.transactions id transaction
            transactionCurrentId := s.transactionCurrentId + 1 })

/-- `MemStorage.createTransactionItem` (`storage.ts:508-513`). -/
def createTransactionItem (s : Storage)
    (insertTransactionItem : InsertTransactionItem) :
    TransactionItem × Storage :=
  let id := s.transactionItemCurrentId
  let transactionItem : TransactionItem :=
    { id := id
      transactionId := insertTransactionItem.transactionId
      medicineId := insertTransactionItem.medicineId
      medicineName := insertTransactionItem.medicineName
      quantity := insertTransactionItem.quantity
      price := insertTransactionItem.price
      unitPrice := insertTransactionItem.unitPrice }
  (transactionItem,
   { s with transactionItems := mapSet s.transactionItems id transactionItem
            transactionItemCurrentId := s.transactionItemCurrentId + 1 })

/-- `MemStorage.createOrder` (`storage.ts:559-569`): like transactions, the
stored status is forced to `pending` and the order date to the clock. -/
def createOrder (s : Storage) (now : Int) (insertOrder : InsertOrder) :
    Order × Storage :=
  let id := s.orderCurrentId
  let order : Order :=
    { id := id
      supplierId := insertOrder.supplierId
      orderDate := now
      expectedDeliveryDate := insertOrder.expectedDeliveryDate
      status := "pending"
      notes := insertOrder.notes }
  (order,
   { s with orders := mapSet s.orders id order
            orderCurrentId := s.orderCurrentId + 1 })

/-- `MemStorage.updateOrderStatus` (`storage.ts:571-578`): unconditional
overwrite of the status field — the current status is never consulted. -/
def updateOrderStatus (s : Storage) (id : Nat) (status : String) :
    Option Order × Storage :=
  match mapGet s.orders id with
  | none => (none, s)
  | some order =>
    let updatedOrder := { order with status := status }
    (some updatedOrder,
     { s with orders := mapSet s.orders id updatedOrder })

/-- `MemStorage.getOrderItems` (`storage.ts:581-585`). -/
def getOrderItems (s : Storage) (orderId : Nat) : List OrderItem :=
  (s.orderItems.map (fun p => p.2)).filter (fun item => item.orderId == orderId)

/-- `MemStorage.createOrderItem` (`storage.ts:587-592`). -/
def createOrderItem (s : Storage) (insertOrderItem : InsertOrderItem) :
    OrderItem × Storage :=
  let id := s.orderItemCurrentId
  let orderItem : OrderItem :=
    { id := id
      orderId := insertOrderItem.orderId
      medicineId := insertOrderItem.medicineId
      quantity := insertOrderItem.quantity }
  (orderItem,
   { s with orderItems := mapSet s.orderItems id orderItem
            orderItemCurrentId := s.orderItemCurrentId + 1 })

end MemStorage

namespace Routes

/-- Outcome of `POST /api/transactions/:id/items`: 404 when the transaction
id is unknown, otherwise 201 with the created item. -/
inductive ItemResult where
  | notFound
  | created (item : TransactionItem)
deriving DecidableEq

/-- `POST /api/transactions/:id/items` (`routes.ts:322-353`), the operation the spec calls
`recordSale`: look up the transaction (404 when absent); build the item data
from the body with the `transactionId` of the path spread over it; store the item;
then, when the referenced medicine exists, write back
`stockQuantity: medicine.stockQuantity - itemData.quantity` through
`updateMedicine` (no clamp and no other field on the patch); a missing
medicine silently skips the stock adjustment. -/
def postTransactionItem (s : Storage) (transactionId : Nat)
    (body : InsertTransactionItem) : ItemResult × Storage :=
  match MemStorage.getTransaction s transactionId with
  | none => (.notFound, s)
  | some _ =>
    let itemData := { body with transactionId := transactionId }
    let (item, s1) := MemStorage.createTransactionItem s itemData
    match MemStorage.getMedicine s1 itemData.medicineId with
    | none => (.created item, s1)
    | some medicine =>
      let (_, s2) := MemStorage.updateMedicine s1 medicine.id
        { emptyPatch with
            stockQuantity := some (medicine.stockQuantity - itemData.quantity) }
      (.created item, s2)

/-- Outcome of `PATCH /api/orders/:id/status`: 400 on a status outside the
allowed list, 404 on an unknown order id, otherwise 200 with the updated
order. -/
inductive OrderStatusResult where
  | invalidStatus
  | notFound
  | ok (order : Order)
deriving DecidableEq

/-- The status whitelist of `routes.ts:524`. -/
def orderStatusValues : List String :=
  ["pending", "processing", "shipped", "delivered", "cancelled"]

/-- The `for (const item of items)` loop of `routes.ts:536-545`: for each
order item in turn, read the referenced medicine from the current state and,
when it exists, write back `stockQuantity + item.quantity` through
`updateMedicine`; unknown medicines are skipped. -/
def deliverItems (items : List OrderItem) (s : Storage) : Storage :=
  items.foldl
    (fun acc item =>
      match MemStorage.getMedicine acc item.medicineId with
      | none => acc
      | some medicine =>
        (MemStorage.updateMedicine acc medicine.id
          { emptyPatch with
              stockQuantity := some (medicine.stockQuantity + item.quantity) }).2)
    s

/-- `PATCH /api/orders/:id/status` (`routes.ts:519-552`): validate the status
string, overwrite the status of the order via `updateOrderStatus`, and — whenever
the NEW status is `delivered`, with no look at the previous status — credit
the quantity of every order item to its medicine. -/
def patchOrderStatus (s : Storage) (id : Nat) (status : String) :
    OrderStatusResult × Storage :=
  if orderStatusValues.contains status then
    match MemStorage.updateOrderStatus s id status with
    | (none, s1) => (.notFound, s1)
    | (some order, s1) =>
      let s2 :=
        if status = "delivered" then
          deliverItems (MemStorage.getOrderItems s1 id) s1
        else s1
      (.ok order, s2)
  else
    (.invalidStatus, s)

end Routes

namespace Patterns

/-- `BaseMedicine.getStockStatus` from the presentation-layer factory module
(`client` pattern file, lines 55-65): quantity at most 0 maps to the out-of-stock label,
below 5 to the critical label, below 10 to the low-stock label, and
otherwise to the in-stock label. -/
def getStockStatus (stockQuantity : Int) : String :=
  if stockQuantity ≤ 0 then "Out of Stock"
  else if stockQuantity < 5 then "Critical"
  else if stockQuantity < 10 then "Low Stock"
  else "In Stock"

/-- The evident renaming between the `stock_status` enum of the Entity Store
values and the display labels of the presentation layer. -/
def statusLabel : StockStatus → String
  | .out_of_stock => "Out of Stock"
  | .critical => "Critical"
  | .low_stock => "Low Stock"
  | .in_stock => "In Stock"

end Patterns

/-- The §3 invariant: the persisted status of every stored medicine is the one
derived from its persisted quantity. -/
abbrev MedicinesConsistent (s : Storage) : Prop :=
  ∀ p ∈ s.medicines,
    (p.2).stockStatus = MemStorage.storageStockStatus (p.2).stockQuantity

/-- An `InsertMedicine` payload with the given quantity (the other fields are
irrelevant to the stock logic). -/
def mkInsertMedicine (q : Int) : InsertMedicine :=
  { name := "med", description := none, category := "cat", price := 100,
    stockQuantity := q, expiryDate := none, batchNumber := none,
    supplierId := none }

/-- An `InsertMedicine` payload with the given quantity and expiry day. -/
def mkInsertMedicineExpiring (q : Int) (expiry : Int) : InsertMedicine :=
  { mkInsertMedicine q with expiryDate := some expiry }

/-- An `InsertTransaction` payload (fields irrelevant to the stock logic). -/
def mkInsertTransaction : InsertTransaction :=
  { patientId := 1, prescriptionId := none, transactionNumber := "TX-1",
    totalAmount := 0, notes := none, patientName := none }

/-- A sale line of `n` units of medicine `medicineId`, as posted to
`POST /api/transactions/:id/items` (the `transactionId` of the body is overridden
by the path parameter anyway). -/
def mkSaleBody (medicineId : Nat) (n : Int) : InsertTransactionItem :=
  { transactionId := 0, medicineId := medicineId, medicineName := "med",
    quantity := n, price := 0, unitPrice := 0 }

/-- An `InsertOrder` payload. -/
def mkInsertOrder : InsertOrder :=
  { supplierId := 1, expectedDeliveryDate := none, notes := none }

/-- An `InsertPrescription` payload with the given prescription number. -/
def mkInsertPrescription (number : String) : InsertPrescription :=
  { prescriptionNumber := number, patientId := 1, doctorId := 1,
    issueDate := 0, notes := none }

/-- Store holding one medicine (id 1) with quantity 10 and one order (id 1)
with a single item of 5 units of that medicine: the C1 delivery scenario,
built through the operations of the store itself. -/
def deliveryScenarioStore : Storage :=
  let s1 := (MemStorage.createMedicine emptyStorage (mkInsertMedicine 10)).2
  let s2 := (MemStorage.createOrder s1 0 mkInsertOrder).2
  (MemStorage.createOrderItem s2
    { orderId := 1, medicineId := 1, quantity := 5 }).2

/-- The store after issuing `PATCH /api/orders/1/status` with `delivered`
once on the delivery scenario. -/
def deliveredOnce : Storage :=
  (Routes.patchOrderStatus deliveryScenarioStore 1 "delivered").2

/-- The store after issuing the same status update a second time. -/
def deliveredTwice : Storage :=
  (Routes.patchOrderStatus deliveredOnce 1 "delivered").2

/-- Store holding one medicine (id 1) with quantity 3 and one transaction
(id 1): the C4 oversell scenario. -/
def oversellScenarioStore : Storage :=
  let s1 := (MemStorage.createMedicine emptyStorage (mkInsertMedicine 3)).2
  (MemStorage.createTransaction s1 0 mkInsertTransaction).2

/-- Store holding one order (id 1) whose status has been driven to
`delivered`, for the C5 terminality counterexample. -/
def deliveredOrderStore : Storage :=
  let s1 := (MemStorage.createOrder emptyStorage 0 mkInsertOrder).2
  (Routes.patchOrderStatus s1 1 "delivered").2

/-- Store holding one medicine (id 1) with quantity 25 and one transaction
(id 1): the §8 sale scenario start. -/
def saleScenarioStore : Storage :=
  let s1 := (MemStorage.createMedicine emptyStorage (mkInsertMedicine 25)).2
  (MemStorage.createTransaction s1 0 mkInsertTransaction).2

/-- §8 scenario state after the sale of 10 (via the route handler). -/
def saleScenario1 : Storage :=
  (Routes.postTransactionItem saleScenarioStore 1 (mkSaleBody 1 10)).2

/-- §8 scenario state after the further sale of 11. -/
def saleScenario2 : Storage :=
  (Routes.postTransactionItem saleScenario1 1 (mkSaleBody 1 11)).2

/-- §8 scenario state after the further sale of 4. -/
def saleScenario3 : Storage :=
  (Routes.postTransactionItem saleScenario2 1 (mkSaleBody 1 4)).2

/-- Store holding two medicines: id 1 expiring on day 29 and id 2 expiring on
day 31 ("today" being day 0), for the C8 boundary check. -/
def expiryScenarioStore : Storage :=
  let s1 := (MemStorage.createMedicine emptyStorage
    (mkInsertMedicineExpiring 25 29)).2
  (MemStorage.createMedicine s1 (mkInsertMedicineExpiring 25 31)).2

/-- The result of creating two prescriptions with the same prescription
number on an empty store. -/
def duplicatePrescriptionStore : Storage :=
  let s1 := (MemStorage.createPrescription emptyStorage
    (mkInsertPrescription "RX-1")).2
  (MemStorage.createPrescription s1 (mkInsertPrescription "RX-1")).2

/-- The transaction item `POST /api/transactions/:id/items` stores: the body
with the `transactionId` of the path spliced in and the next item id of the
store. -/
def routeItem (s : Storage) (tid : Nat) (body : InsertTransactionItem) :
    TransactionItem :=
  { id := s.transactionItemCurrentId, transactionId := tid,
    medicineId := body.medicineId, medicineName := body.medicineName,
    quantity := body.quantity, price := body.price,
    unitPrice := body.unitPrice }

/-- A medicine record after a sale of `n` units as the route writes it back:
quantity decremented without clamping, status recomputed. -/
def soldMedicine (m : Medicine) (n : Int) : Medicine :=
  { m with stockQuantity := m.stockQuantity - n,
           stockStatus := MemStorage.storageStockStatus
             (m.stockQuantity - n) }

/-! ## Association-list (JS `Map`) lemmas -/

theorem mapGet_cons {α : Type} (p : Nat × α) (t : List (Nat × α)) (k : Nat) :
    mapGet (p :: t) k = if p.1 = k then some p.2 else mapGet t k := by
  by_cases h : p.1 = k <;> simp [mapGet, List.find?_cons, h]

theorem mapGet_mapSet_self {α : Type} (m : List (Nat × α)) (k : Nat) (v : α) :
    mapGet (mapSet m k v) k = some v := by
  induction m with
  | nil => simp [mapSet, mapGet_cons]
  | cons p t ih =>
    by_cases h : p.1 = k
    · simp [mapSet, h, mapGet_cons]
    · simp [mapSet, h, mapGet_cons, ih]

theorem mapGet_mapSet_ne {α : Type} (m : List (Nat × α)) (k k' : Nat) (v : α)
    (h : k' ≠ k) : mapGet (mapSet m k v) k' = mapGet m k' := by
  induction m with
  | nil => simp [mapSet, mapGet_cons, mapGet, (Ne.symm h)]
  | cons p t ih =>
    by_cases hp : p.1 = k
    · simp [mapSet, hp, mapGet_cons, (Ne.symm h)]
    · simp [mapSet, hp, mapGet_cons, ih]

theorem mem_mapSet {α : Type} {m : List (Nat × α)} {k : Nat} {v : α}
    {q : Nat × α} (hq : q ∈ mapSet m k v) : q = (k, v) ∨ q ∈ m := by
  induction m with
  | nil =>
    simp only [mapSet, List.mem_singleton] at hq
    exact Or.inl hq
  | cons p t ih =>
    by_cases hp : p.1 = k
    · simp only [mapSet, hp, beq_self_eq_true, if_true, List.mem_cons] at hq
      rcases hq with h | h
      · exact Or.inl h
      · exact Or.inr (List.mem_cons_of_mem p h)
    · simp only [mapSet, List.mem_cons, beq_iff_eq, hp, if_false] at hq
      rcases hq with h | h
      · exact Or.inr (by simp [h])
      · rcases ih h with h1 | h1
        · exact Or.inl h1
        · exact Or.inr (List.mem_cons_of_mem p h1)

theorem mapSet_of_get_none {α : Type} {m : List (Nat × α)} {k : Nat} (v : α)
    (h : mapGet m k = none) : mapSet m k v = m ++ [(k, v)] := by
  induction m with
  | nil => rfl
  | cons p t ih =>
    rw [mapGet_cons] at h
    by_cases hp : p.1 = k
    · simp [hp] at h
    · simp only [hp, if_false] at h
      simp [mapSet, hp, ih h]

/-! ## Frame lemmas: which fields each store operation leaves alone -/

theorem updateMedicine_frame (s : Storage) (id : Nat) (p : MedicinePatch) :
    ((MemStorage.updateMedicine s id p).2).users = s.users ∧
    ((MemStorage.updateMedicine s id p).2).patients = s.patients ∧
    ((MemStorage.updateMedicine s id p).2).doctors = s.doctors ∧
    ((MemStorage.updateMedicine s id p).2).prescriptions = s.prescriptions ∧
    ((MemStorage.updateMedicine s id p).2).prescriptionItems
      = s.prescriptionItems ∧
    ((MemStorage.updateMedicine s id p).2).transactions = s.transactions ∧
    ((MemStorage.updateMedicine s id p).2).transactionItems
      = s.transactionItems ∧
    ((MemStorage.updateMedicine s id p).2).suppliers = s.suppliers ∧
    ((MemStorage.updateMedicine s id p).2).orders = s.orders ∧
    ((MemStorage.updateMedicine s id p).2).orderItems = s.orderItems := by
  unfold MemStorage.updateMedicine
  cases mapGet s.medicines id <;> simp

theorem deliverItems_orders (items : List OrderItem) (s : Storage) :
    (Routes.deliverItems items s).orders = s.orders := by
  induction items generalizing s with
  | nil => rfl
  | cons it t ih =>
    show (Routes.deliverItems t _).orders = s.orders
    rw [ih]
    cases hm : MemStorage.getMedicine s it.medicineId with
    | none => simp [hm]
    | some medicine =>
      simp only [hm]
      exact (updateMedicine_frame _ _ _).2.2.2.2.2.2.2.2.1

/-! ## Preservation of the status/quantity invariant -/

theorem consistent_mapSet {m : List (Nat × Medicine)} {k : Nat} {v : Medicine}
    (hm : ∀ p ∈ m,
      (p.2).stockStatus = MemStorage.storageStockStatus (p.2).stockQuantity)
    (hv : v.stockStatus = MemStorage.storageStockStatus v.stockQuantity) :
    ∀ p ∈ mapSet m k v,
      (p.2).stockStatus = MemStorage.storageStockStatus (p.2).stockQuantity := by
  intro p hp
  rcases mem_mapSet hp with h | h
  · rw [h]
    exact hv
  · exact hm p h

theorem createMedicine_consistent (s : Storage) (ins : InsertMedicine)
    (h : MedicinesConsistent s) :
    MedicinesConsistent (MemStorage.createMedicine s ins).2 := by
  intro p hp
  exact consistent_mapSet h rfl p hp

theorem updateMedicine_consistent (s : Storage) (id : Nat) (p : MedicinePatch)
    (h : MedicinesConsistent s) :
    MedicinesConsistent (MemStorage.updateMedicine s id p).2 := by
  unfold MemStorage.updateMedicine
  cases hg : mapGet s.medicines id with
  | none => exact h
  | some existing =>
    intro q hq
    exact consistent_mapSet h rfl q hq

theorem deliverItems_consistent (items : List OrderItem) (s : Storage)
    (h : MedicinesConsistent s) :
    MedicinesConsistent (Routes.deliverItems items s) := by
  induction items generalizing s with
  | nil => exact h
  | cons it t ih =>
    show MedicinesConsistent (Routes.deliverItems t _)
    apply ih
    cases hm : MemStorage.getMedicine s it.medicineId with
    | none => simpa [hm] using h
    | some medicine =>
      simp only [hm]
      exact updateMedicine_consistent _ _ _ h

theorem postTransactionItem_consistent (s : Storage) (tid : Nat)
    (body : InsertTransactionItem) (h : MedicinesConsistent s) :
    MedicinesConsistent (Routes.postTransactionItem s tid body).2 := by
  unfold Routes.postTransactionItem
  cases MemStorage.getTransaction s tid with
  | none => exact h
  | some t =>
    simp only [MemStorage.createTransactionItem]
    cases hg : MemStorage.getMedicine
        { s with
            transactionItems := mapSet s.transactionItems
              s.transactionItemCurrentId
              { id := s.transactionItemCurrentId, transactionId := tid,
                medicineId := body.medicineId,
                medicineName := body.medicineName, quantity := body.quantity,
                price := body.price, unitPrice := body.unitPrice }
            transactionItemCurrentId := s.transactionItemCurrentId + 1 }
        body.medicineId with
    | none => exact h
    | some medicine =>
      simp only [hg]
      exact updateMedicine_consistent _ _ _ h

theorem patchOrderStatus_consistent (s : Storage) (id : Nat) (st : String)
    (h : MedicinesConsistent s) :
    MedicinesConsistent (Routes.patchOrderStatus s id st).2 := by
  unfold Routes.patchOrderStatus
  by_cases hv : Routes.orderStatusValues.contains st
  · simp only [hv, if_true]
    cases hu : MemStorage.updateOrderStatus s id st with
    | mk o s1 =>
      have hs1 : MedicinesConsistent s1 := by
        have : s1 = (MemStorage.updateOrderStatus s id st).2 := by rw [hu]
        rw [this]
        unfold MemStorage.updateOrderStatus
        cases mapGet s.orders id with
        | none => exact h
        | some _ => exact h
      cases o with
      | none => exact hs1
      | some order =>
        by_cases hd : st = "delivered"
        · simp only [hd, if_true]
          exact deliverItems_consistent _ _ hs1
        · simp only [hd, if_false]
          exact hs1
  · simp only [hv, if_false]
    exact h

/-! ## Claims -/

/-- C1: the claim says issuing the `delivered` status update twice leaves
stock as after issuing it once.  The code instead credits the order items on
EVERY `delivered` update: on the scenario store (medicine 1 at quantity 10,
order 1 with one item of 5 units) the first update leaves quantity 15, and
re-issuing the identical update leaves 20 — stock is double-credited. -/
theorem delivered_twice_double_credits :
    (mapGet deliveredOnce.medicines 1).map Medicine.stockQuantity
      = some 15 ∧
    (mapGet deliveredTwice.medicines 1).map Medicine.stockQuantity
      = some 20 := by
  constructor <;> rfl

/-- C2: in any store whose medicines all satisfy
`stockStatus = storageStockStatus stockQuantity`, the invariant still holds
after a medicine creation, after an arbitrary partial update (including a
patch that smuggles in a `stockStatus` value — the recomputation overwrites
it), after a transaction-item creation through the route, and after an order
status update through the route (in particular after a delivery). -/
theorem stock_status_invariant_preserved
    (s : Storage) (ins : InsertMedicine) (id : Nat) (p : MedicinePatch)
    (tid : Nat) (body : InsertTransactionItem) (oid : Nat) (st : String)
    (h : MedicinesConsistent s) :
    MedicinesConsistent (MemStorage.createMedicine s ins).2 ∧
    MedicinesConsistent (MemStorage.updateMedicine s id p).2 ∧
    MedicinesConsistent (Routes.postTransactionItem s tid body).2 ∧
    MedicinesConsistent (Routes.patchOrderStatus s oid st).2 :=
  ⟨createMedicine_consistent s ins h,
   updateMedicine_consistent s id p h,
   postTransactionItem_consistent s tid body h,
   patchOrderStatus_consistent s oid st h⟩

/-- C2 witness: the delivery scenario store satisfies the invariant, and the
theorem applies to it with a patch that tries to force `in_stock` onto a
zero quantity. -/
theorem stock_status_invariant_preserved_witness :
    MedicinesConsistent deliveryScenarioStore ∧
    (MedicinesConsistent
      (MemStorage.createMedicine deliveryScenarioStore
        (mkInsertMedicine 7)).2 ∧
     MedicinesConsistent
      (MemStorage.updateMedicine deliveryScenarioStore 1
        { emptyPatch with stockQuantity := some 0,
                          stockStatus := some StockStatus.in_stock }).2 ∧
     MedicinesConsistent
      (Routes.postTransactionItem deliveryScenarioStore 1 (mkSaleBody 1 2)).2 ∧
     MedicinesConsistent
      (Routes.patchOrderStatus deliveryScenarioStore 1 "delivered").2) :=
  ⟨by decide,
   stock_status_invariant_preserved deliveryScenarioStore
     (mkInsertMedicine 7) 1
     { emptyPatch with stockQuantity := some 0,
                       stockStatus := some StockStatus.in_stock }
     1 (mkSaleBody 1 2) 1 "delivered" (by decide)⟩

/-- C3: the derivation in the store sends a non-negative quantity `q` to
`out_of_stock` exactly when `q = 0`, to `critical` exactly when `0 < q ≤ 5`,
to `low_stock` exactly when `5 < q ≤ 20` and to `in_stock` exactly when
`q > 20`; and the §8 scenario holds: a medicine created with quantity 25 is
`in_stock`, and after sales of 10, 11 and 4 the stored (quantity, status)
pairs are (15, `low_stock`), (4, `critical`) and (0, `out_of_stock`). -/
theorem derive_status_table :
    (∀ q : Nat,
      (MemStorage.storageStockStatus q = .out_of_stock ↔ q = 0) ∧
      (MemStorage.storageStockStatus q = .critical ↔ 0 < q ∧ q ≤ 5) ∧
      (MemStorage.storageStockStatus q = .low_stock ↔ 5 < q ∧ q ≤ 20) ∧
      (MemStorage.storageStockStatus q = .in_stock ↔ 20 < q)) ∧
    (MemStorage.createMedicine emptyStorage
      (mkInsertMedicine 25)).1.stockStatus = .in_stock ∧
    (mapGet saleScenario1.medicines 1).map
      (fun m => (m.stockQuantity, m.stockStatus))
      = some (15, .low_stock) ∧
    (mapGet saleScenario2.medicines 1).map
      (fun m => (m.stockQuantity, m.stockStatus))
      = some (4, .critical) ∧
    (mapGet saleScenario3.medicines 1).map
      (fun m => (m.stockQuantity, m.stockStatus))
      = some (0, .out_of_stock) := by
  refine ⟨?_, by rfl, by rfl, by rfl, by rfl⟩
  intro q
  unfold MemStorage.storageStockStatus
  refine ⟨?_, ?_, ?_, ?_⟩ <;>
    (split_ifs with h1 h2 h3 <;> simp <;> omega)

/-- C4: the claim says a sale persists `max(0, q - n)`, so a sale of 10
against quantity 3 leaves 0.  The code has no clamp: on the scenario store
(medicine 1 at quantity 3, transaction 1) posting a sale item of 10 persists
quantity −7. -/
theorem sale_goes_negative :
    (mapGet (Routes.postTransactionItem oversellScenarioStore 1
        (mkSaleBody 1 10)).2.medicines 1).map Medicine.stockQuantity
      = some (-7) := by
  rfl

/-- C5 counterexample: the claim says `delivered` is terminal and `cancelled`
reachable only from non-terminal states.  On a store whose order 1 has status
`delivered`, `PATCH /api/orders/1/status` with `cancelled` succeeds and
changes the status — the update reaches `cancelled` from a supposedly
terminal state. -/
theorem terminal_status_counterexample :
    (mapGet deliveredOrderStore.orders 1).map Order.status
      = some "delivered" ∧
    (mapGet (Routes.patchOrderStatus deliveredOrderStore 1
        "cancelled").2.orders 1).map Order.status
      = some "cancelled" := by
  constructor <;> rfl

/-- C5 amended: `PATCH /api/orders/:id/status` only checks that the new
status is one of the five allowed strings; the current status of the stored
order
is never consulted, so ANY allowed status (including a move away from
`delivered` or `cancelled`) overwrites unconditionally. -/
theorem status_update_unconditional
    (s : Storage) (id : Nat) (st : String) (o : Order)
    (hst : st ∈ Routes.orderStatusValues)
    (ho : mapGet s.orders id = some o) :
    (Routes.patchOrderStatus s id st).1
      = Routes.OrderStatusResult.ok { o with status := st } ∧
    mapGet (Routes.patchOrderStatus s id st).2.orders id
      = some { o with status := st } := by
  have hc : Routes.orderStatusValues.contains st = true := by
    exact List.elem_iff.mpr hst
  have hup : MemStorage.updateOrderStatus s id st =
      (some { o with status := st },
       { s with orders := mapSet s.orders id { o with status := st } }) := by
    unfold MemStorage.updateOrderStatus
    rw [ho]
  unfold Routes.patchOrderStatus
  simp only [hc, if_true, hup]
  by_cases hd : st = "delivered"
  · simp only [hd, if_true]
    refine ⟨trivial, ?_⟩
    rw [deliverItems_orders]
    exact mapGet_mapSet_self s.orders id { o with status := "delivered" }
  · simp only [hd, if_false]
    exact ⟨trivial, mapGet_mapSet_self s.orders id { o with status := st }⟩

/-- C5 amended witness: on a store holding order 1 with status `pending`,
updating to `processing` succeeds and overwrites. -/
theorem status_update_unconditional_witness :
    "processing" ∈ Routes.orderStatusValues ∧
    mapGet (Routes.patchOrderStatus
        (MemStorage.createOrder emptyStorage 0 mkInsertOrder).2
        1 "processing").2.orders 1
      = some { (MemStorage.createOrder emptyStorage 0 mkInsertOrder).1 with
               status := "processing" } :=
  ⟨by decide,
   (status_update_unconditional
      (MemStorage.createOrder emptyStorage 0 mkInsertOrder).2 1 "processing"
      (MemStorage.createOrder emptyStorage 0 mkInsertOrder).1
      (by decide) (by rfl)).2⟩

/-- C6: posting a sale item of `body.quantity` units against an existing
medicine stores exactly one new transaction item (appended at the end of the
items map, with the transaction id of the path and the next item id of the
store),
rewrites exactly that one medicine record — its quantity decremented by
exactly `body.quantity`, its status recomputed — leaves every other medicine
binding untouched, and leaves every other entity collection of the store
byte-for-byte unchanged. -/
theorem transaction_item_frame
    (s : Storage) (tid : Nat) (body : InsertTransactionItem) (m : Medicine)
    (ht : (MemStorage.getTransaction s tid).isSome = true)
    (hm : mapGet s.medicines body.medicineId = some m)
    (hid : m.id = body.medicineId)
    (hfresh : mapGet s.transactionItems s.transactionItemCurrentId = none) :
    (Routes.postTransactionItem s tid body).1
      = Routes.ItemResult.created (routeItem s tid body) ∧
    mapGet (Routes.postTransactionItem s tid body).2.medicines body.medicineId
      = some (soldMedicine m body.quantity) ∧
    (∀ k, k ≠ body.medicineId →
      mapGet (Routes.postTransactionItem s tid body).2.medicines k
        = mapGet s.medicines k) ∧
    (Routes.postTransactionItem s tid body).2.transactionItems
      = s.transactionItems ++ [(s.transactionItemCurrentId, routeItem s tid body)] ∧
    (Routes.postTransactionItem s tid body).2.users = s.users ∧
    (Routes.postTransactionItem s tid body).2.patients = s.patients ∧
    (Routes.postTransactionItem s tid body).2.doctors = s.doctors ∧
    (Routes.postTransactionItem s tid body).2.prescriptions
      = s.prescriptions ∧
    (Routes.postTransactionItem s tid body).2.prescriptionItems
      = s.prescriptionItems ∧
    (Routes.postTransactionItem s tid body).2.transactions
      = s.transactions ∧
    (Routes.postTransactionItem s tid body).2.suppliers = s.suppliers ∧
    (Routes.postTransactionItem s tid body).2.orders = s.orders ∧
    (Routes.postTransactionItem s tid body).2.orderItems = s.orderItems := by
  obtain ⟨t, ht2⟩ := Option.isSome_iff_exists.mp ht
  unfold MemStorage.getTransaction at ht2
  have hstep : Routes.postTransactionItem s tid body =
      (Routes.ItemResult.created (routeItem s tid body),
       { s with
           transactionItems := mapSet s.transactionItems
             s.transactionItemCurrentId (routeItem s tid body)
           transactionItemCurrentId := s.transactionItemCurrentId + 1
           medicines := mapSet s.medicines body.medicineId
             (soldMedicine m body.quantity) }) := by
    simp only [Routes.postTransactionItem, MemStorage.getTransaction,
      MemStorage.createTransactionItem, MemStorage.getMedicine,
      MemStorage.updateMedicine, MemStorage.applyPatch, routeItem,
      soldMedicine, emptyPatch, ht2, hid, hm, Option.getD_some,
      Option.getD_none]
  rw [hstep]
  refine ⟨rfl, ?_, ?_, ?_, rfl, rfl, rfl, rfl, rfl, rfl, rfl, rfl, rfl⟩
  · exact mapGet_mapSet_self s.medicines body.medicineId
      (soldMedicine m body.quantity)
  · intro k hk
    exact mapGet_mapSet_ne s.medicines body.medicineId k
      (soldMedicine m body.quantity) hk
  · exact mapSet_of_get_none _ hfresh

/-- C6 witness: on the §8 sale-scenario store (medicine 1 at quantity 25,
transaction 1), the sale of 10 stores its record and updates the medicine. -/
theorem transaction_item_frame_witness :
    (MemStorage.getTransaction saleScenarioStore 1).isSome = true ∧
    mapGet (Routes.postTransactionItem saleScenarioStore 1
        (mkSaleBody 1 10)).2.medicines 1
      = some (soldMedicine
          (MemStorage.createMedicine emptyStorage (mkInsertMedicine 25)).1
          10) :=
  ⟨by rfl,
   (transaction_item_frame saleScenarioStore 1 (mkSaleBody 1 10)
      (MemStorage.createMedicine emptyStorage (mkInsertMedicine 25)).1
      (by rfl) (by rfl) (by rfl) (by rfl)).2.1⟩

/-- C7 counterexample: the claim says the presentation-layer classification
matches the derivation of the Entity Store under the evident label renaming.  At
quantity 5 the store derives `critical` (threshold `<= 5`) while the
presentation layer answers the low-stock label (threshold `< 5`), so the two
derivations disagree. -/
theorem threshold_tables_disagree :
    Patterns.getStockStatus 5 = "Low Stock" ∧
    Patterns.statusLabel (MemStorage.storageStockStatus 5) = "Critical" ∧
    Patterns.getStockStatus 5
      ≠ Patterns.statusLabel (MemStorage.storageStockStatus 5) := by
  refine ⟨rfl, rfl, ?_⟩
  decide

/-- C7 amended: the two derivations agree exactly outside the gap the two
threshold tables leave open — for every non-negative quantity other than 5
and outside 10..20, `BaseMedicine.getStockStatus` equals the derivation of
the store under the evident renaming (they disagree at 5, where the store says critical and the
presentation layer low stock, and on 10..20, where the store says low stock
and the presentation layer in stock). -/
theorem threshold_tables_agree_outside_gap
    (q : Nat) (h5 : q ≠ 5) (h10 : q < 10 ∨ 20 < q) :
    Patterns.getStockStatus q
      = Patterns.statusLabel (MemStorage.storageStockStatus q) := by
  unfold Patterns.getStockStatus MemStorage.storageStockStatus
    Patterns.statusLabel
  rcases h10 with h10 | h10 <;> (split_ifs <;> first | rfl | omega)

/-- C7 amended witness: at quantity 7 both tables answer the low-stock
label. -/
theorem threshold_tables_agree_outside_gap_witness :
    (7 : Nat) ≠ 5 ∧ ((7 : Nat) < 10 ∨ 20 < (7 : Nat)) ∧
    Patterns.getStockStatus 7
      = Patterns.statusLabel (MemStorage.storageStockStatus 7) :=
  ⟨by decide, by decide,
   threshold_tables_agree_outside_gap 7 (by decide) (by decide)⟩

/-- C8: membership in `getMedicinesByExpiryDate s today days` holds exactly
for the stored medicines with a non-null expiry date at most
`today + days` — independent of stock status and including dates before
today; and on the boundary store ("today" = day 0, threshold 30) the
medicine expiring on day 29 is returned while the one expiring on day 31 is
not. -/
theorem expiring_medicines_characterization :
    (∀ (s : Storage) (today days : Int) (m : Medicine),
      m ∈ MemStorage.getMedicinesByExpiryDate s today days ↔
        (m ∈ s.medicines.map (fun p => p.2) ∧
         ∃ d, m.expiryDate = some d ∧ d ≤ today + days)) ∧
    MemStorage.getMedicinesByExpiryDate expiryScenarioStore 0 30
      = [(MemStorage.createMedicine emptyStorage
          (mkInsertMedicineExpiring 25 29)).1] := by
  constructor
  · intro s today days m
    unfold MemStorage.getMedicinesByExpiryDate
    rw [List.mem_filter]
    constructor
    · rintro ⟨hmem, hp⟩
      refine ⟨hmem, ?_⟩
      cases hd : m.expiryDate with
      | none => rw [hd] at hp; simp at hp
      | some d =>
        rw [hd] at hp
        simp only [decide_eq_true_eq] at hp
        exact ⟨d, rfl, hp⟩
    · rintro ⟨hmem, d, hd, hle⟩
      refine ⟨hmem, ?_⟩
      rw [hd]
      simpa using hle
  · rfl

/-- C9 counterexample: the claim says a create with an already-stored
prescription number fails with a `DuplicateKey` error and the duplicate is
not stored.  Creating `RX-1` twice on an empty store instead succeeds both
times: the store then holds two prescriptions (ids 1 and 2) sharing the
number `RX-1`. -/
theorem duplicate_prescription_stored :
    duplicatePrescriptionStore.prescriptions.map
      (fun p => ((p.2).id, (p.2).prescriptionNumber))
      = [(1, "RX-1"), (2, "RX-1")] := by
  rfl

/-- C9 amended: `createPrescription` performs no uniqueness check of any
kind: for every store state and every insert payload — in particular one
whose number is already stored — it assigns the next id and stores the
record, returning it with the prescription number of the caller. -/
theorem create_prescription_unconditional
    (s : Storage) (ins : InsertPrescription) :
    (MemStorage.createPrescription s ins).1.prescriptionNumber
      = ins.prescriptionNumber ∧
    mapGet (MemStorage.createPrescription s ins).2.prescriptions
        s.prescriptionCurrentId
      = some (MemStorage.createPrescription s ins).1 :=
  ⟨rfl, mapGet_mapSet_self s.prescriptions s.prescriptionCurrentId _⟩

/-- C10: for every store state, clock value and insert payload, a created
transaction has status `pending` and its date taken from the clock, and a
created order has status `pending` and its order date from the clock; the
stored record is the returned one (the insert schemas carry no status field
and the store writes its own after the spread, so no payload can influence
either). -/
theorem created_status_forced_pending
    (s : Storage) (now : Int) (ti : InsertTransaction) (oi : InsertOrder) :
    ((MemStorage.createTransaction s now ti).1.status
        = TransactionStatus.pending ∧
     (MemStorage.createTransaction s now ti).1.date = now ∧
     mapGet (MemStorage.createTransaction s now ti).2.transactions
         s.transactionCurrentId
       = some (MemStorage.createTransaction s now ti).1) ∧
    ((MemStorage.createOrder s now oi).1.status = "pending" ∧
     (MemStorage.createOrder s now oi).1.orderDate = now ∧
     mapGet (MemStorage.createOrder s now oi).2.orders s.orderCurrentId
       = some (MemStorage.createOrder s now oi).1) :=
  ⟨⟨rfl, rfl, mapGet_mapSet_self s.transactions s.transactionCurrentId _⟩,
   ⟨rfl, rfl, mapGet_mapSet_self s.orders s.orderCurrentId _⟩⟩

end PharmaTrack
